import Mathlib

/-!
Shallow embedding of the python-inventory-service repository:
`models.py` (ProductCategory, ProductDetails and its dict/JSON conversion),
`inventory_service.py` (the upstream HTTP client and the all-categories
aggregation), and `api.py` (the FastAPI route handlers, modelled as functions
from the upstream response to the resulting HTTP status code together with
the number of upstream network calls attempted).

Modelling conventions:
- Python exceptions become `Except PyError`; a `try/except` that logs and
  returns a fallback becomes a `match` on the `Except` value.
- Python `Decimal` and `float` values are modelled as `ℚ`.  Every concrete
  number used below (19.99, 59.97, ...) is exactly representable as a short
  decimal numeral, and `repr`/`str` of such a float round-trips its decimal
  numeral, so `float(...)`, `str(...)`, `Decimal(str(...))` and JSON
  number serialization are identities at this level of the model.
- A Python dict (and its JSON image) is an insertion-ordered association
  list `PyDict` with distinct keys; `json.dumps`/`json.loads` preserve the
  keys and the (rational) numeric values, so `to_json`/`from_json` are
  modelled directly on `PyDict`.
- The upstream backend is a parameter: a response value per call.
-/

deriving instance DecidableEq for Except

/-- The Python exception classes that the embedded code can raise. -/
inductive PyError
  | valueError
  | typeError
deriving DecidableEq, Repr

/-- `models.py` ProductCategory enum, in Python definition order. -/
inductive ProductCategory
  | ACCESSORIES
  | HARDWARE
  | SOFTWARE
  | BOOKS
  | MOVIES
  | MUSIC
  | GAMES
  | OTHER
deriving DecidableEq, Repr

/-- The string value of each enum member. -/
def ProductCategory.value : ProductCategory → String
  | .ACCESSORIES => "Accessories"
  | .HARDWARE => "Hardware"
  | .SOFTWARE => "Software"
  | .BOOKS => "Books"
  | .MOVIES => "Movies"
  | .MUSIC => "Music"
  | .GAMES => "Games"
  | .OTHER => "Other"

/-- Iteration order of `for category in ProductCategory` (definition order). -/
def ProductCategory.members : List ProductCategory :=
  [.ACCESSORIES, .HARDWARE, .SOFTWARE, .BOOKS, .MOVIES, .MUSIC, .GAMES, .OTHER]

/-- `ProductCategory(s)`: value lookup; `none` models the raised ValueError
for a string that is not the value of any member. -/
def ProductCategory.fromString (s : String) : Option ProductCategory :=
  ProductCategory.members.find? (fun c => c.value = s)

/-- Values that can appear in a Python dict / JSON object in this code base:
None, strings, ints, Decimal/float numbers, and ProductCategory enum
members (from_dict handles "both string and enum values"). -/
inductive PyValue
  | pynone
  | str (s : String)
  | int (n : Int)
  | num (q : ℚ)
  | cat (c : ProductCategory)
deriving DecidableEq, Repr

/-- A Python dict with string keys, in insertion order. -/
def PyDict := List (String × PyValue)
deriving DecidableEq, Repr

/-- `models.py` ProductDetails dataclass fields, with their Python types
rendered as Lean types (Decimal as ℚ). -/
structure ProductDetails where
  id : Option String := none
  name : Option String := none
  description : Option String := none
  category : ProductCategory := ProductCategory.OTHER
  quantity : Int := 0
  unit_price : ℚ := 0
  details_url : Option String := none
  image_url : Option String := none
deriving DecidableEq, Repr

/-- Round-half-even of a rational to an integer: the rounding mode used by
Python round() on Decimal values (Decimal default context ROUND_HALF_EVEN).
Computed on the reduced numerator and denominator: `f` is the floor of `x`
and `twice` is twice the fractional numerator, compared against the
denominator to decide below/above/exactly half. -/
def roundHalfEvenZ (x : ℚ) : ℤ :=
  let f : ℤ := Int.fdiv x.num (x.den : ℤ)
  let twice : ℤ := 2 * (x.num - f * (x.den : ℤ))
  if twice < (x.den : ℤ) then f
  else if (x.den : ℤ) < twice then f + 1
  else if f % 2 = 0 then f else f + 1

/-- `round(value, 2)` on a Decimal value. -/
def roundTo2 (x : ℚ) : ℚ := (roundHalfEvenZ (x * 100) : ℚ) / 100

/-- ProductDetails.total_price property: `round(self.quantity * self.unit_price, 2)`. -/
def ProductDetails.total_price (p : ProductDetails) : ℚ :=
  roundTo2 ((p.quantity : ℚ) * p.unit_price)

/-- How `asdict` renders an optional-string field into a dict value. -/
def pyOfOpt : Option String → PyValue
  | none => .pynone
  | some s => .str s

/-- ProductDetails.to_dict: `asdict(self)` in field order, with the category
entry overwritten by its string value, unit_price overwritten by its float
value, and total_price appended as a new key at the end. -/
def ProductDetails.to_dict (p : ProductDetails) : PyDict :=
  [("id", pyOfOpt p.id),
   ("name", pyOfOpt p.name),
   ("description", pyOfOpt p.description),
   ("category", .str p.category.value),
   ("quantity", .int p.quantity),
   ("unit_price", .num p.unit_price),
   ("details_url", pyOfOpt p.details_url),
   ("image_url", pyOfOpt p.image_url),
   ("total_price", .num p.total_price)]

/-- The dataclass field names of ProductDetails; `cls(**data)` accepts
exactly these keyword arguments. -/
def productFields : List String :=
  ["id", "name", "description", "category", "quantity", "unit_price",
   "details_url", "image_url"]

/-- The category handling at the top of ProductDetails.from_dict: when the
key category is present and its value is a string, replace it by
`ProductCategory(value)` — which raises ValueError on an unrecognized
string; an enum value is left unchanged; when the key is absent the
dataclass default (OTHER) applies.  A category value of any other shape
could not inhabit the typed record and is modelled as a TypeError. -/
def categoryOfDict (data : PyDict) : Except PyError ProductCategory :=
  match data.lookup "category" with
  | none => .ok ProductCategory.OTHER
  | some (.str s) =>
    match ProductCategory.fromString s with
    | some c => .ok c
    | none => .error .valueError
  | some (.cat c) => .ok c
  | some _ => .error .typeError

/-- The unit_price handling of from_dict: when the key is present,
`Decimal(str(value))` (identity on the rational model for int and number
values); when absent, the dataclass default Decimal 0.00. -/
def unitPriceOfDict (data : PyDict) : Except PyError ℚ :=
  match data.lookup "unit_price" with
  | none => .ok 0
  | some (.num q) => .ok q
  | some (.int n) => .ok (n : ℚ)
  | some _ => .error .typeError

/-- Extraction of the quantity keyword for `cls(**data)` (default 0). -/
def quantityOfDict (data : PyDict) : Except PyError Int :=
  match data.lookup "quantity" with
  | none => .ok 0
  | some (.int n) => .ok n
  | some _ => .error .typeError

/-- Extraction of an optional-string keyword for `cls(**data)`. -/
def pyOptField (data : PyDict) (key : String) : Except PyError (Option String) :=
  match data.lookup key with
  | none => .ok none
  | some .pynone => .ok none
  | some (.str s) => .ok (some s)
  | some _ => .error .typeError

/-- ProductDetails.from_dict: category conversion first (possible
ValueError), then unit_price conversion, then `cls(**data)` — which raises
TypeError when any key of the dict is not a dataclass field name
(an unexpected keyword argument), and otherwise builds the record using
the dataclass defaults for absent fields. -/
def ProductDetails.from_dict (data : PyDict) : Except PyError ProductDetails :=
  match categoryOfDict data with
  | .error e => .error e
  | .ok category =>
  match unitPriceOfDict data with
  | .error e => .error e
  | .ok unit_price =>
  match quantityOfDict data with
  | .error e => .error e
  | .ok quantity =>
  if data.all (fun kv => productFields.contains kv.1) then
    match pyOptField data "id", pyOptField data "name",
          pyOptField data "description", pyOptField data "details_url",
          pyOptField data "image_url" with
    | .ok id, .ok name, .ok description, .ok details_url, .ok image_url =>
      .ok { id := id, name := name, description := description,
            category := category, quantity := quantity,
            unit_price := unit_price, details_url := details_url,
            image_url := image_url }
    | _, _, _, _, _ => .error .typeError
  else .error .typeError

/-- ProductDetails.to_json: `json.dumps(self.to_dict())`.  The JSON text
round-trips the dict exactly (keys, order and rational numeric values), so
it is modelled by the dict itself. -/
def ProductDetails.to_json (p : ProductDetails) : PyDict := p.to_dict

/-- ProductDetails.from_json: `cls.from_dict(json.loads(json_str))`. -/
def ProductDetails.from_json (d : PyDict) : Except PyError ProductDetails :=
  ProductDetails.from_dict d

/-- An upstream response to the list-by-category GET: a status code with the
JSON array body (a list of product dicts, only read when the status is 200),
or a network-level failure (the aiohttp call raised). -/
inductive HttpListResponse
  | status (code : Nat) (body : List PyDict)
  | network_error
deriving DecidableEq, Repr

/-- The list comprehension
`[ProductDetails.from_dict(product) for product in products_data]`:
the first exception raised while converting an element propagates, aborting
the whole list. -/
def mapFromDict : List PyDict → Except PyError (List ProductDetails)
  | [] => .ok []
  | d :: rest =>
    match ProductDetails.from_dict d with
    | .error e => .error e
    | .ok p =>
      match mapFromDict rest with
      | .error e => .error e
      | .ok ps => .ok (p :: ps)

/-- InventoryService._get_products_by_category_async (also exposed as
get_products_by_category_async): one GET per call; on status 200 the body is
converted with from_dict — an exception there is caught by the except of
this same function, which logs and returns the empty list; any non-200
status logs a warning and returns the empty list; a network failure is
caught, logged, and returns the empty list. -/
def get_products_by_category_async (resp : HttpListResponse) : List ProductDetails :=
  match resp with
  | .network_error => []
  | .status code body =>
    if code = 200 then
      match mapFromDict body with
      | .ok ps => ps
      | .error _ => []
    else []

/-- `hash(p)` for a ProductDetails instance.  The class is declared with a
bare `@dataclass` decorator (eq defaults to True, frozen to False), so the
dataclass machinery sets `__hash__ = None`: every instance is unhashable
and hashing raises TypeError. -/
def ProductDetails.pyHash (_p : ProductDetails) : Except PyError Unit :=
  .error .typeError

/-- `all_products.update(products)`: the Python set.update hashes each
element of the iterable in turn, inserting it, and raises as soon as one
element is unhashable. -/
def setUpdate (s : Finset ProductDetails) :
    List ProductDetails → Except PyError (Finset ProductDetails)
  | [] => .ok s
  | p :: rest =>
    match p.pyHash with
    | .error e => .error e
    | .ok _ => setUpdate (insert p s) rest

/-- InventoryService.get_all_products_async: iterate the categories in enum
order; for each, fetch the category list (that call never raises — it
returns [] on failure) and update the accumulating set; any exception in
the loop body (in particular the TypeError raised by set.update on
unhashable elements) is caught, logged, and the loop continues with the set
unchanged.  The upstream parameter gives the backend response per
category. -/
def get_all_products_async (upstream : ProductCategory → HttpListResponse) :
    Finset ProductDetails :=
  ProductCategory.members.foldl
    (fun all_products category =>
      match setUpdate all_products (get_products_by_category_async (upstream category)) with
      | .ok s => s
      | .error _ => all_products)
    ∅

/-- Modelled from the spec: the result `listAll()` is specified to produce —
the deduplicated union (value equality) of the per-category results across
every member of the enumeration.  Stated separately from
`get_all_products_async` so the two can be compared. -/
def spec_listAll_union (upstream : ProductCategory → HttpListResponse) :
    Finset ProductDetails :=
  ProductCategory.members.foldl
    (fun acc category =>
      acc ∪ (get_products_by_category_async (upstream category)).toFinset)
    ∅

/-- An upstream response to the get-by-id GET: a status code with the JSON
object body (only read when the status is 200), or a network failure. -/
inductive HttpGetResponse
  | status (code : Nat) (body : PyDict)
  | network_error
deriving DecidableEq, Repr

/-- InventoryService.get_product_by_id_async: 200 parses the body (a
from_dict exception is caught by the except of this function, returning
None); 404 returns None; any other status logs a warning and returns None;
a network failure is caught, logged, and returns None. -/
def get_product_by_id_async (resp : HttpGetResponse) : Option ProductDetails :=
  match resp with
  | .network_error => none
  | .status code body =>
    if code = 200 then
      match ProductDetails.from_dict body with
      | .ok p => some p
      | .error _ => none
    else none

/-- An upstream response where only the status code is read (the POST of
upsert and the DELETE of remove), or a network failure. -/
inductive UpstreamStatus
  | status (code : Nat)
  | network_error
deriving DecidableEq, Repr

/-- InventoryService.add_or_update_product_async:
`response.status in [200, 201]`; a network failure is caught, logged, and
yields False. -/
def add_or_update_product_async (resp : UpstreamStatus) : Bool :=
  match resp with
  | .status code => code == 200 || code == 201
  | .network_error => false

/-- InventoryService.remove_product_async:
`response.status in [200, 204]`; a network failure is caught, logged, and
yields False. -/
def remove_product_async (resp : UpstreamStatus) : Bool :=
  match resp with
  | .status code => code == 200 || code == 204
  | .network_error => false

/-- The inbound pydantic model of the POST body (api.py ProductRequest):
plain type annotations only — no value constraints on any field. -/
structure ProductRequest where
  id : Option String := none
  name : Option String := none
  description : Option String := none
  category : String := ""
  quantity : Int := 0
  unit_price : ℚ := 0
  details_url : Option String := none
  image_url : Option String := none
deriving DecidableEq, Repr

/-- Outcome of a gateway route: the HTTP status code of the response and
the number of upstream network calls the handler attempted. -/
structure RouteResult where
  status : Nat
  upstream_calls : Nat
deriving DecidableEq, Repr

/-- Outcome of the POST route, which additionally echoes the accepted
product on success. -/
structure PostRouteResult where
  status : Nat
  upstream_calls : Nat
  echoed : Option ProductDetails
deriving DecidableEq, Repr

/-- api.py get_products_by_category route (GET /categories/cat/products):
validate the category string with `ProductCategory(category)` — a
ValueError becomes an HTTPException 400 before the service is called;
otherwise delegate to the service (exactly one upstream GET) and respond
200 with the converted list.  Result: status, upstream call count, body. -/
def get_products_by_category (upstream : ProductCategory → HttpListResponse)
    (category : String) : Nat × Nat × List ProductDetails :=
  match ProductCategory.fromString category with
  | none => (400, 0, [])
  | some product_category =>
    (200, 1, get_products_by_category_async (upstream product_category))

/-- api.py add_or_update_product route (POST /categories/cat/products):
validate the category string (400 before any upstream call on failure),
build the ProductDetails from the request body — with the validated path
category, not the body category field — and POST it upstream; a False from
the service raises HTTPException 500, a True responds 200 echoing the
product. -/
def add_or_update_product (upstream : UpstreamStatus) (category : String)
    (product_request : ProductRequest) : PostRouteResult :=
  match ProductCategory.fromString category with
  | none => { status := 400, upstream_calls := 0, echoed := none }
  | some product_category =>
    let product : ProductDetails :=
      { id := product_request.id,
        name := product_request.name,
        description := product_request.description,
        category := product_category,
        quantity := product_request.quantity,
        unit_price := product_request.unit_price,
        details_url := product_request.details_url,
        image_url := product_request.image_url }
    if add_or_update_product_async upstream then
      { status := 200, upstream_calls := 1, echoed := some product }
    else
      { status := 500, upstream_calls := 1, echoed := none }

/-- api.py remove_product route (DELETE /categories/cat/products/id):
validate the category string (400 before any upstream call on failure);
then one upstream DELETE; a False from the service raises HTTPException
404, a True responds 200 with a success message. -/
def remove_product (upstream : UpstreamStatus) (category : String)
    (_product_id : String) : RouteResult :=
  match ProductCategory.fromString category with
  | none => { status := 400, upstream_calls := 0 }
  | some _product_category =>
    if remove_product_async upstream then
      { status := 200, upstream_calls := 1 }
    else
      { status := 404, upstream_calls := 1 }

/-- api.py get_product_by_id route (GET /products/id): a None from the
service raises HTTPException 404, a product responds 200.  (The except
branches of the route are unreachable for upstream failures: the service
method catches everything itself and returns None.)  Result: the HTTP
status code. -/
def get_product_by_id (resp : HttpGetResponse) : Nat :=
  match get_product_by_id_async resp with
  | none => 404
  | some _ => 200

/-- One upstream-call event of the aggregation loop: the GET for a category
is issued, or it completes (the awaited coroutine returns). -/
inductive FanoutEvent
  | callStart (category : ProductCategory)
  | callEnd (category : ProductCategory)
deriving DecidableEq, Repr

/-- The upstream-call event order of get_all_products_async: the body of
`for category in ProductCategory` awaits
`self._get_products_by_category_async(category)` to completion before the
next iteration begins, so each call starts and ends before the next call
starts. -/
def get_all_products_trace : List FanoutEvent :=
  (ProductCategory.members.map
    (fun c => [FanoutEvent.callStart c, FanoutEvent.callEnd c])).flatten

/-- A well-formed upstream product dict for the Books category. -/
def bookDict : PyDict :=
  [("id", PyValue.str "book-1"), ("category", PyValue.str "Books")]

/-- The record bookDict parses to. -/
def bookProduct : ProductDetails :=
  { id := some "book-1", category := ProductCategory.BOOKS }

/-- A well-formed upstream product dict for the Hardware category. -/
def hardwareDict : PyDict :=
  [("id", PyValue.str "hw-1"), ("category", PyValue.str "Hardware")]

/-- The record hardwareDict parses to. -/
def hardwareProduct : ProductDetails :=
  { id := some "hw-1", category := ProductCategory.HARDWARE }

/-- An upstream where every category query succeeds: Books has exactly one
product, every other category is empty. -/
def upstreamOneBook : ProductCategory → HttpListResponse :=
  fun c => if c = ProductCategory.BOOKS
           then HttpListResponse.status 200 [bookDict]
           else HttpListResponse.status 200 []

/-- An upstream where exactly one category (Books) fails at the network
level and the other seven succeed, Hardware with exactly one product. -/
def upstreamBooksDown : ProductCategory → HttpListResponse :=
  fun c => if c = ProductCategory.BOOKS then HttpListResponse.network_error
           else if c = ProductCategory.HARDWARE
           then HttpListResponse.status 200 [hardwareDict]
           else HttpListResponse.status 200 []

/-- An upstream that answers every list query with an empty 200. -/
def emptyUpstream : ProductCategory → HttpListResponse :=
  fun _ => HttpListResponse.status 200 []

/-- The quantity=3, unit_price=19.99 record of the round-trip scenario. -/
def roundtripRecord : ProductDetails :=
  { quantity := 3, unit_price := 1999/100 }

/-- The derived total price of the round-trip record: 3 × 19.99 = 59.97,
which two-decimal rounding leaves unchanged. -/
theorem roundtripRecord_total_price : roundtripRecord.total_price = 5997/100 := by
  have h1 : ((roundtripRecord.quantity : ℚ)) * roundtripRecord.unit_price * 100 = (5997 : ℚ) := by
    norm_num [roundtripRecord]
  unfold ProductDetails.total_price roundTo2
  rw [h1]
  have h2 : roundHalfEvenZ (5997 : ℚ) = 5997 := by unfold roundHalfEvenZ; simp
  rw [h2]
  norm_num


/-- The dict of a product whose category string is not an enum member. -/
def badCategoryDict : PyDict := [("category", PyValue.str "Fruit")]

/-- The record the POST route constructs from negativeRequest. -/
def negativeProduct : ProductDetails :=
  { id := some "bad-1", category := ProductCategory.BOOKS,
    quantity := -5, unit_price := -1 }

/-- An inbound POST body carrying a negative quantity and unit price. -/
def negativeRequest : ProductRequest :=
  { id := some "bad-1", category := "Books", quantity := -5, unit_price := -1 }

/-- C1: for every category string that is not the value of a
ProductCategory member, the list-by-category, upsert and remove routes
respond 400 and attempt zero upstream network calls, whatever the upstream
would have answered. -/
theorem c1_invalid_category_fails_before_upstream
    (s : String) (h : ProductCategory.fromString s = none)
    (upstream : ProductCategory → HttpListResponse)
    (post del : UpstreamStatus) (req : ProductRequest) (pid : String) :
    get_products_by_category upstream s = (400, 0, []) ∧
    add_or_update_product post s req =
      { status := 400, upstream_calls := 0, echoed := none } ∧
    remove_product del s pid = { status := 400, upstream_calls := 0 } := by
  refine ⟨?_, ?_, ?_⟩ <;>
    simp [get_products_by_category, add_or_update_product, remove_product, h]

/-- C1 witness at the concrete non-member category string Fruit. -/
theorem c1_invalid_category_fails_before_upstream_witness :
    get_products_by_category emptyUpstream "Fruit" = (400, 0, []) ∧
    add_or_update_product UpstreamStatus.network_error "Fruit" {} =
      { status := 400, upstream_calls := 0, echoed := none } ∧
    remove_product UpstreamStatus.network_error "Fruit" "p1" =
      { status := 400, upstream_calls := 0 } :=
  c1_invalid_category_fails_before_upstream "Fruit" (by decide) emptyUpstream
    UpstreamStatus.network_error UpstreamStatus.network_error {} "p1"

/-- C2: the claim fails on the code.  With every category succeeding and
Books holding exactly one product, the deduplicated union across the
categories has one element (containing the Books product), but
get_all_products_async returns the empty set: ProductDetails is an
unhashable dataclass, so set.update raises TypeError on any nonempty list
and the except clause of the loop swallows it. -/
theorem c2_listAll_returns_empty_despite_products :
    get_all_products_async upstreamOneBook = ∅ ∧
    (spec_listAll_union upstreamOneBook).card = 1 ∧
    bookProduct ∈ spec_listAll_union upstreamOneBook := by decide

/-- C3: the claim fails on the code.  With exactly one category (Books)
failing at the network level and the other seven succeeding (Hardware with
one product), the union of the successful results is the Hardware
singleton, but get_all_products_async still returns the empty set — the
successful nonempty category is lost to the same unhashability TypeError. -/
theorem c3_partial_failure_also_loses_successes :
    get_all_products_async upstreamBooksDown = ∅ ∧
    spec_listAll_union upstreamBooksDown = {hardwareProduct} := by decide

/-- C4: serialization of the quantity=3, unit_price=19.99 record does put
total_price=59.97 in the JSON, but deserializing that very JSON raises
TypeError instead of reproducing the record: to_dict adds the total_price
key, from_dict never removes it, and the dataclass constructor rejects it
as an unexpected keyword argument. -/
theorem c4_roundtrip_raises_typeerror :
    roundtripRecord.to_json.lookup "total_price" = some (PyValue.num (5997/100)) ∧
    ProductDetails.from_json roundtripRecord.to_json = .error PyError.typeError := by
  constructor
  · simp [ProductDetails.to_json, ProductDetails.to_dict, List.lookup,
      roundtripRecord_total_price]
  · decide

/-- C5 counterexample: at the concrete upstream response 503 the service
returns the absent sentinel (so absent is not returned exactly on 404) and
the gateway responds 404 — not 500 as the claim states. -/
theorem c5_upstream_error_yields_404_not_500 :
    get_product_by_id_async (HttpGetResponse.status 503 []) = none ∧
    get_product_by_id (HttpGetResponse.status 503 []) = 404 ∧
    get_product_by_id (HttpGetResponse.status 503 []) ≠ 500 := by decide

/-- C5 amended: get-by-id returns the absent sentinel when the upstream
responds 404 and also on every other non-200 status and on network
failure; the gateway maps absent to HTTP 404, so upstream errors surface
as 404, never 500. -/
theorem c5_absent_on_404_and_on_errors (code : Nat) (body : PyDict)
    (h : code ≠ 200) :
    get_product_by_id_async (HttpGetResponse.status code body) = none ∧
    get_product_by_id (HttpGetResponse.status code body) = 404 ∧
    get_product_by_id_async HttpGetResponse.network_error = none ∧
    get_product_by_id HttpGetResponse.network_error = 404 := by
  refine ⟨?_, ?_, ?_, ?_⟩ <;> simp [get_product_by_id, get_product_by_id_async, h]

/-- C5 amended witness at the concrete status 503. -/
theorem c5_absent_on_404_and_on_errors_witness :
    get_product_by_id_async (HttpGetResponse.status 503 bookDict) = none ∧
    get_product_by_id (HttpGetResponse.status 503 bookDict) = 404 ∧
    get_product_by_id_async HttpGetResponse.network_error = none ∧
    get_product_by_id HttpGetResponse.network_error = 404 :=
  c5_absent_on_404_and_on_errors 503 bookDict (by decide)

/-- C6: upsert returns True exactly when the upstream POST status is 200 or
201 (network failure yields False), and whenever it returns False for a
valid category the gateway responds 500. -/
theorem c6_upsert_true_iff_200_or_201 (resp : UpstreamStatus)
    (category : String) (c : ProductCategory) (req : ProductRequest)
    (hcat : ProductCategory.fromString category = some c) :
    (add_or_update_product_async resp = true ↔
      resp = UpstreamStatus.status 200 ∨ resp = UpstreamStatus.status 201) ∧
    (add_or_update_product_async resp = false →
      (add_or_update_product resp category req).status = 500) := by
  constructor
  · cases resp with
    | network_error => simp [add_or_update_product_async]
    | status code => simp [add_or_update_product_async]
  · intro hfail
    simp [add_or_update_product, hcat, hfail]

/-- C6 witness at the concrete upstream status 500 and category Books. -/
theorem c6_upsert_true_iff_200_or_201_witness :
    (add_or_update_product_async (UpstreamStatus.status 500) = true ↔
      UpstreamStatus.status 500 = UpstreamStatus.status 200 ∨
      UpstreamStatus.status 500 = UpstreamStatus.status 201) ∧
    (add_or_update_product_async (UpstreamStatus.status 500) = false →
      (add_or_update_product (UpstreamStatus.status 500) "Books" {}).status = 500) :=
  c6_upsert_true_iff_200_or_201 (UpstreamStatus.status 500) "Books"
    ProductCategory.BOOKS {} (by decide)

/-- C7: for a valid category, the DELETE route responds 200 when the
upstream answers 204 or 200, and 404 for every other status (and on
network failure), with exactly one upstream call in each case. -/
theorem c7_delete_gateway_mapping (category : String) (c : ProductCategory)
    (pid : String) (code : Nat)
    (hcat : ProductCategory.fromString category = some c)
    (h200 : code ≠ 200) (h204 : code ≠ 204) :
    remove_product (UpstreamStatus.status 204) category pid =
      { status := 200, upstream_calls := 1 } ∧
    remove_product (UpstreamStatus.status 200) category pid =
      { status := 200, upstream_calls := 1 } ∧
    remove_product (UpstreamStatus.status code) category pid =
      { status := 404, upstream_calls := 1 } ∧
    remove_product UpstreamStatus.network_error category pid =
      { status := 404, upstream_calls := 1 } := by
  refine ⟨?_, ?_, ?_, ?_⟩ <;>
    simp [remove_product, remove_product_async, hcat, h200, h204]

/-- C7 witness: DELETE /categories/Books/products/abc123 with upstream
status 204 responds 200, and with upstream status 404 responds 404. -/
theorem c7_delete_gateway_mapping_witness :
    remove_product (UpstreamStatus.status 204) "Books" "abc123" =
      { status := 200, upstream_calls := 1 } ∧
    remove_product (UpstreamStatus.status 200) "Books" "abc123" =
      { status := 200, upstream_calls := 1 } ∧
    remove_product (UpstreamStatus.status 404) "Books" "abc123" =
      { status := 404, upstream_calls := 1 } ∧
    remove_product UpstreamStatus.network_error "Books" "abc123" =
      { status := 404, upstream_calls := 1 } :=
  c7_delete_gateway_mapping "Books" ProductCategory.BOOKS "abc123" 404
    (by decide) (by decide) (by decide)

/-- C8 counterexample: the POST route accepts a request with quantity −5
and unit price −1 (valid category, successful upstream): it responds 200
and echoes the record, whose quantity and unit_price are negative —
the claimed bounds are not enforced anywhere. -/
theorem c8_negative_values_accepted :
    add_or_update_product (UpstreamStatus.status 200) "Books" negativeRequest =
      { status := 200, upstream_calls := 1, echoed := some negativeProduct } ∧
    negativeProduct.quantity < 0 ∧ negativeProduct.unit_price < 0 := by
  refine ⟨by decide, by decide, ?_⟩
  norm_num [negativeProduct]

/-- C8 amended: the public API enforces no bound on quantity or unit_price:
the inbound model declares plain int and float fields with no constraint,
and the route validates only the category string, so a request with any
quantity and unit price — negative included — is accepted and forwarded
verbatim. -/
theorem c8_no_bounds_enforced (q : Int) (price : ℚ) :
    (add_or_update_product (UpstreamStatus.status 200) "Books"
      { negativeRequest with quantity := q, unit_price := price }).status = 200 ∧
    ((add_or_update_product (UpstreamStatus.status 200) "Books"
      { negativeRequest with quantity := q, unit_price := price }).echoed.map
        ProductDetails.quantity) = some q ∧
    ((add_or_update_product (UpstreamStatus.status 200) "Books"
      { negativeRequest with quantity := q, unit_price := price }).echoed.map
        ProductDetails.unit_price) = some price := by
  have hcat : ProductCategory.fromString "Books" = some ProductCategory.BOOKS := by decide
  refine ⟨?_, ?_, ?_⟩ <;>
    simp [add_or_update_product, add_or_update_product_async, hcat]

/-- C9: the claim fails on the code.  The aggregation loop awaits each
category call to completion before issuing the next: its upstream-call
event trace is strictly sequential — every call ends before the next one
starts — so the per-category queries are not issued concurrently. -/
theorem c9_fanout_is_sequential :
    get_all_products_trace =
      [FanoutEvent.callStart ProductCategory.ACCESSORIES,
       FanoutEvent.callEnd ProductCategory.ACCESSORIES,
       FanoutEvent.callStart ProductCategory.HARDWARE,
       FanoutEvent.callEnd ProductCategory.HARDWARE,
       FanoutEvent.callStart ProductCategory.SOFTWARE,
       FanoutEvent.callEnd ProductCategory.SOFTWARE,
       FanoutEvent.callStart ProductCategory.BOOKS,
       FanoutEvent.callEnd ProductCategory.BOOKS,
       FanoutEvent.callStart ProductCategory.MOVIES,
       FanoutEvent.callEnd ProductCategory.MOVIES,
       FanoutEvent.callStart ProductCategory.MUSIC,
       FanoutEvent.callEnd ProductCategory.MUSIC,
       FanoutEvent.callStart ProductCategory.GAMES,
       FanoutEvent.callEnd ProductCategory.GAMES,
       FanoutEvent.callStart ProductCategory.OTHER,
       FanoutEvent.callEnd ProductCategory.OTHER] := by decide

/-- Helper: a list containing one dict whose conversion raises makes the
whole comprehension raise (whatever happens to the other elements). -/
theorem mapFromDict_error_of_mem (pre post : List PyDict) (d : PyDict) (e : PyError)
    (hd : ProductDetails.from_dict d = .error e) :
    ∃ f, mapFromDict (pre ++ d :: post) = .error f := by
  induction pre with
  | nil =>
    refine ⟨e, ?_⟩
    simp [mapFromDict, hd]
  | cons a rest ih =>
    obtain ⟨f, hf⟩ := ih
    cases ha : ProductDetails.from_dict a with
    | error g => exact ⟨g, by simp [mapFromDict, ha]⟩
    | ok p => exact ⟨f, by simp [mapFromDict, ha, hf]⟩

/-- C10: from_dict raises ValueError on any dict whose category value is a
string outside the enumeration, and a 200 upstream response containing one
such product dict makes the whole category result collapse to the empty
list — the well-formed records around it are lost. -/
theorem c10_bad_category_discards_whole_response
    (d : PyDict) (s : String) (pre post : List PyDict)
    (hkey : d.lookup "category" = some (PyValue.str s))
    (hbad : ProductCategory.fromString s = none) :
    ProductDetails.from_dict d = .error PyError.valueError ∧
    get_products_by_category_async
      (HttpListResponse.status 200 (pre ++ d :: post)) = [] := by
  have hfd : ProductDetails.from_dict d = .error PyError.valueError := by
    simp [ProductDetails.from_dict, categoryOfDict, hkey, hbad]
  refine ⟨hfd, ?_⟩
  obtain ⟨f, hf⟩ := mapFromDict_error_of_mem pre post d PyError.valueError hfd
  simp [get_products_by_category_async, hf]

/-- C10 witness: a 200 response holding one good Books dict followed by one
Fruit-category dict yields the empty list. -/
theorem c10_bad_category_discards_whole_response_witness :
    ProductDetails.from_dict badCategoryDict = .error PyError.valueError ∧
    get_products_by_category_async
      (HttpListResponse.status 200 ([bookDict] ++ badCategoryDict :: [])) = [] :=
  c10_bad_category_discards_whole_response badCategoryDict "Fruit" [bookDict] []
    (by decide) (by decide)
